import Mathlib

/-!
Shallow embedding of the work-item efficiency scoring engine of the
Azure-devops-cli-tool repository.

Sources embedded:
* `src/classes/efficiency_calculator.py` — estimate resolution, active-hours
  capping, delivery timing tiers, completion bonus, traditional and fair
  efficiency, the emitted per-item metrics record (`EfficiencyCalculator`).
* `src/classes/WorkItemOperations.py` (`_calculate_developer_metrics`) — the
  per-developer aggregation loop and derived averages.

Numbers are modelled as exact rationals.  Python's `round(x, n)` is modelled
as rounding `x * 10^n` to the nearest integer (half up, Mathlib's `round`)
and dividing back; none of the inputs used in the theorems below sits on an
exact half-tie, where Python's float-based half-even rule could differ.

The state-transition stack (`state_transition_stack.py`) is imported by the
calculator but its source file is not part of the provided tree; its outputs
(`should_ignore_work_item`, `get_total_productive_hours`, ...) are therefore
taken as an abstract input record `StackResult`, over which the theorems
quantify.
-/

namespace AzKpi

/-- Python `round(x, 2)` model: round half up to 2 decimal places
(`⌊x·100 + 1/2⌋ / 100`, which agrees with Mathlib's `round (x·100) / 100`). -/
def round2 (x : ℚ) : ℚ := ((⌊x * 100 + 1/2⌋ : ℤ) : ℚ) / 100

/-- Python `round(x, 1)` model: round half up to 1 decimal place. -/
def round1 (x : ℚ) : ℚ := ((⌊x * 10 + 1/2⌋ : ℤ) : ℚ) / 10

/-- Scoring configuration (`EfficiencyCalculator.__init__`), flattened from
the nested Python dictionary; only keys read by the embedded code paths are
kept.  Late-delivery tier boundaries (3/7/14 days) are literals in the code,
not configuration. -/
structure ScoringConfig where
  completion_bonus_percentage : ℚ
  max_efficiency_cap : ℚ
  max_hours_per_day : ℚ
  very_early_days : ℚ
  early_days : ℚ
  slightly_early_days : ℚ
  score_very_early : ℚ
  score_early : ℚ
  score_slightly_early : ℚ
  score_on_time : ℚ
  bonus_very_early : ℚ
  bonus_early : ℚ
  bonus_slightly_early : ℚ
  score_late_1_3 : ℚ
  score_late_4_7 : ℚ
  score_late_8_14 : ℚ
  score_late_15_plus : ℚ
  mitigation_late_1_3 : ℚ
  mitigation_late_4_7 : ℚ
  mitigation_late_8_14 : ℚ
  mitigation_late_15_plus : ℚ
deriving DecidableEq

/-- The default configuration values of `EfficiencyCalculator.__init__`. -/
def defaultConfig : ScoringConfig :=
  ⟨1/5, 150, 8, 7, 3, 1, 130, 120, 110, 100, 1, 1/2, 1/4, 90, 80, 70, 60, 2, 4, 6, 8⟩

/-- A nullable date-string field of a work item: `missing` models a falsy
Python value (`None` or `""`), `malformed` a string on which
`datetime.fromisoformat` raises, `parsed` a successfully parsed instant
(as epoch seconds, exact rational). -/
inductive DateField
  | missing
  | malformed
  | parsed (epochSeconds : ℚ)
deriving DecidableEq

/-- The work-item fields read by the efficiency calculator. -/
structure WorkItem where
  state : String
  original_estimate : Option ℚ
  target_date : DateField
  closed_date : DateField
deriving DecidableEq

/-- Outputs of the state-transition stack consumed by the calculator
(`should_ignore_work_item`, `get_total_productive_hours`,
`get_total_paused_hours`, `get_total_time_all_states`, and the
pattern-summary flags).  The stack source is not in the provided tree, so
these are abstract inputs. -/
structure StackResult where
  should_ignore : Bool
  is_completed : Bool
  was_reopened : Bool
  total_productive_hours : ℚ
  total_paused_hours : ℚ
  total_time_all_states : ℚ
  active_after_reopen_hours : ℚ
deriving DecidableEq

/-- Result record of `_calculate_delivery_timing` and of the tier helpers. -/
structure DeliveryMetrics where
  delivery_score : ℚ
  timing_bonus_hours : ℚ
  late_penalty_mitigation : ℚ
  days_difference : ℚ
deriving DecidableEq

/-- `_calculate_early_delivery_bonus` (efficiency_calculator.py lines 476-500). -/
def earlyDeliveryBonus (cfg : ScoringConfig) (d : ℚ) : DeliveryMetrics :=
  if d ≤ -cfg.very_early_days then
    ⟨cfg.score_very_early, abs d * cfg.bonus_very_early, 0, round1 d⟩
  else if d ≤ -cfg.early_days then
    ⟨cfg.score_early, abs d * cfg.bonus_early, 0, round1 d⟩
  else if d ≤ -cfg.slightly_early_days then
    ⟨cfg.score_slightly_early, abs d * cfg.bonus_slightly_early, 0, round1 d⟩
  else
    ⟨cfg.score_on_time, 0, 0, round1 d⟩

/-- `_calculate_late_delivery_penalty` (efficiency_calculator.py lines 502-525).
The 3/7/14-day boundaries are literals in the source. -/
def lateDeliveryPenalty (cfg : ScoringConfig) (d : ℚ) : DeliveryMetrics :=
  if d ≤ 3 then ⟨cfg.score_late_1_3, 0, cfg.mitigation_late_1_3, round1 d⟩
  else if d ≤ 7 then ⟨cfg.score_late_4_7, 0, cfg.mitigation_late_4_7, round1 d⟩
  else if d ≤ 14 then ⟨cfg.score_late_8_14, 0, cfg.mitigation_late_8_14, round1 d⟩
  else ⟨cfg.score_late_15_plus, 0, cfg.mitigation_late_15_plus, round1 d⟩

/-- Defaults returned when either date is absent or unparseable
(efficiency_calculator.py lines 447-453 and 468-474). -/
def defaultDeliveryMetrics : DeliveryMetrics := ⟨100, 0, 0, 0⟩

/-- `_calculate_delivery_timing` (efficiency_calculator.py lines 442-474):
if either date is falsy, or parsing either raises, return the defaults;
otherwise branch on `days_difference = (closed - target)/86400`. -/
def calcDeliveryTiming (cfg : ScoringConfig) (target closed : DateField) :
    DeliveryMetrics :=
  match target, closed with
  | DateField.parsed t, DateField.parsed c =>
      let d := (c - t) / 86400
      if d ≤ 0 then earlyDeliveryBonus cfg d else lateDeliveryPenalty cfg d
  | _, _ => defaultDeliveryMetrics

/-- `_calculate_estimated_time_from_work_item` (lines 209-238): the Fabric
`original_estimate` when present and positive, else 0.  The timeframe
arguments are accepted but unused — the proportional scaling call is
commented out in the source. -/
def calcEstimatedTime (wi : WorkItem)
    (timeframe_start timeframe_end : Option String) : ℚ :=
  match wi.original_estimate with
  | some v => if 0 < v then v else 0
  | none => 0

/-- `_adjust_estimate_for_timeframe` (lines 288-312): intentionally disabled,
always returns the base estimate unchanged. -/
def adjustEstimateForTimeframe (wi : WorkItem) (base : ℚ)
    (timeframe_start timeframe_end : Option String) : ℚ := base

/-- The distinct values taken by the `capping_applied` field; the Python
strings (every one of them non-empty) map injectively onto these
constructors, `capped_at_estimate` carrying the before/after values that the
source interpolates into the string. -/
inductive CappingReason
  | no_data
  | ignored_item
  | no_estimate_exclusion
  | capped_at_estimate (before after : ℚ)
  | no_capping_needed
  | unknown
deriving DecidableEq

/-- Active-hours capping (efficiency_calculator.py lines 141-155): with no
positive estimate, active time is zeroed; otherwise it is capped at 1.2 times
the estimate. -/
def applyCapping (estimated_hours raw : ℚ) : ℚ × CappingReason :=
  if estimated_hours ≤ 0 then (0, CappingReason.no_estimate_exclusion)
  else
    let maxAllowed := estimated_hours * (6/5)
    if maxAllowed < raw then (maxAllowed, CappingReason.capped_at_estimate raw maxAllowed)
    else (raw, CappingReason.no_capping_needed)

/-- The hardcoded lowercase completion list of line 161 (and of
`_calculate_developer_metrics` line 962). -/
def completedStates : List String := ["closed", "done", "resolved"]

/-- Python's `str.lower()` restricted to the per-character case mapping
(state names are ASCII). -/
def lowerString (s : String) : String := String.mk (s.data.map Char.toLower)

/-- `work_item.get('state', '').lower() in ['closed', 'done', 'resolved']`. -/
def isCompletedState (state : String) : Bool :=
  completedStates.contains (lowerString state)

/-- Traditional efficiency (lines 169-173). -/
def traditionalEfficiency (productive estimated cap : ℚ) : ℚ :=
  if 0 < productive ∧ 0 < estimated then min (estimated / productive * 100) cap
  else 0

/-- Fair efficiency score (lines 175-184):
`min((productive + bonus)/(estimate + mitigation) * 100, cap)` when the
denominator is positive, else 0. -/
def fairEfficiencyFormula (productive completion_bonus estimated_hours
    mitigation cap : ℚ) : ℚ :=
  let numerator := productive + completion_bonus
  let denominator := estimated_hours + mitigation
  if 0 < denominator then min (numerator / denominator * 100) cap else 0

/-- The per-item metrics record emitted by the calculator (lines 186-206);
the unembedded dictionary-valued entries (`state_breakdown`,
`paused_state_breakdown`, `stack_summary`) are omitted. -/
structure EfficiencyMetrics where
  active_time_hours : ℚ
  raw_active_time_hours : ℚ
  paused_time_hours : ℚ
  total_time_hours : ℚ
  estimated_time_hours : ℚ
  efficiency_percentage : ℚ
  fair_efficiency_score : ℚ
  delivery_score : ℚ
  completion_bonus : ℚ
  delivery_timing_bonus : ℚ
  days_ahead_behind : ℚ
  was_reopened : Bool
  active_after_reopen : ℚ
  is_completed : Bool
  should_ignore : Bool
  capping_applied : CappingReason
deriving DecidableEq

/-- `_empty_efficiency_metrics` (lines 542-564). -/
def emptyEfficiencyMetrics (estimated_hours : ℚ) : EfficiencyMetrics :=
  ⟨0, 0, 0, 0, round2 estimated_hours, 0, 0, 0, 0, 0, 0,
   false, 0, false, false, CappingReason.no_data⟩

/-- `_ignored_work_item_metrics` (lines 566-588). -/
def ignoredWorkItemMetrics (estimated_hours : ℚ) : EfficiencyMetrics :=
  ⟨0, 0, 0, 0, round2 estimated_hours, 0, 0, 0, 0, 0, 0,
   false, 0, false, true, CappingReason.ignored_item⟩

/-- `calculate_fair_efficiency_metrics` (lines 84-206).  `state_history_len`
is the length of the `state_history` list; the stack outputs are the abstract
`stack` record. -/
def calculateFairEfficiencyMetrics (cfg : ScoringConfig) (wi : WorkItem)
    (state_history_len : ℕ) (stack : StackResult)
    (timeframe_start timeframe_end : Option String) : EfficiencyMetrics :=
  let estimated_hours := calcEstimatedTime wi timeframe_start timeframe_end
  if state_history_len < 2 then emptyEfficiencyMetrics estimated_hours
  else if stack.should_ignore then ignoredWorkItemMetrics estimated_hours
  else
    let raw := stack.total_productive_hours
    let pc := applyCapping estimated_hours raw
    let delivery := calcDeliveryTiming cfg wi.target_date wi.closed_date
    let completion_bonus :=
      if isCompletedState wi.state then estimated_hours * cfg.completion_bonus_percentage
      else 0
    let traditional := traditionalEfficiency pc.1 estimated_hours cfg.max_efficiency_cap
    let fair := fairEfficiencyFormula pc.1 completion_bonus estimated_hours
        delivery.late_penalty_mitigation cfg.max_efficiency_cap
    ⟨round2 pc.1, round2 raw, round2 stack.total_paused_hours,
     round2 stack.total_time_all_states, round2 estimated_hours,
     round2 traditional, round2 fair, round2 delivery.delivery_score,
     round2 completion_bonus, round2 delivery.timing_bonus_hours,
     delivery.days_difference, stack.was_reopened,
     round2 stack.active_after_reopen_hours, stack.is_completed,
     stack.should_ignore, pc.2⟩

/-- Categories of the State Category Resolver. -/
inductive StateCategory
  | productive
  | paused
  | completion
  | ignored
  | other
deriving DecidableEq

/-- The four configured state-name lists (`state_config` of
`calculate_fair_efficiency_metrics`, defaults at lines 110-116). -/
structure StateCategoryConfig where
  productive_states : List String
  pause_stopper_states : List String
  completion_states : List String
  ignored_states : List String
deriving DecidableEq

/-- The default state categories (lines 111-116). -/
def defaultStateConfig : StateCategoryConfig :=
  ⟨["Active", "In Progress", "Development", "Code Review", "Testing"],
   ["Stopper", "Blocked", "On Hold", "Waiting"],
   ["Resolved", "Closed", "Done"],
   ["Removed", "Discarded", "Cancelled"]⟩

/-- Modelled from the spec: the State Category Resolver (spec section 4.2) is
implemented in `state_transition_stack.py`, which is not among the provided
source files.  Per the spec it is a pure function doing a case-sensitive
exact match against the configured lists, with `other` as the default when no
list contains the name. -/
def classify (state : String) (cfg : StateCategoryConfig) : StateCategory :=
  if cfg.productive_states.contains state then StateCategory.productive
  else if cfg.pause_stopper_states.contains state then StateCategory.paused
  else if cfg.completion_states.contains state then StateCategory.completion
  else if cfg.ignored_states.contains state then StateCategory.ignored
  else StateCategory.other

/-- One element of the per-developer work-item list as seen by
`_calculate_developer_metrics`: the item's current state and its attached
`efficiency` record (`none` models the empty dictionary set on the
exception path, line 2002 of WorkItemOperations.py). -/
structure AggItem where
  state : String
  efficiency : Option EfficiencyMetrics
deriving DecidableEq

/-- Python truthiness of the `capping_applied` entry: every string value the
calculator stores in it (`"no_data"`, `"ignored_item"`,
`"no_estimate_exclusion"`, `"capped_at_1.2x_estimate_..."`,
`"no_capping_needed"`, `"unknown"`) is non-empty, hence truthy. -/
def cappingTruthy (r : CappingReason) : Bool := true

/-- `any(efficiency_data.values())` of `_calculate_developer_metrics`
(line 967): true when any entry of the metrics record is Python-truthy. -/
def anyTruthy (e : EfficiencyMetrics) : Bool :=
  decide (e.active_time_hours ≠ 0) || decide (e.raw_active_time_hours ≠ 0) ||
  decide (e.paused_time_hours ≠ 0) || decide (e.total_time_hours ≠ 0) ||
  decide (e.estimated_time_hours ≠ 0) || decide (e.efficiency_percentage ≠ 0) ||
  decide (e.fair_efficiency_score ≠ 0) || decide (e.delivery_score ≠ 0) ||
  decide (e.completion_bonus ≠ 0) || decide (e.delivery_timing_bonus ≠ 0) ||
  decide (e.days_ahead_behind ≠ 0) || e.was_reopened ||
  decide (e.active_after_reopen ≠ 0) || e.is_completed || e.should_ignore ||
  cappingTruthy e.capping_applied

/-- Accumulator of the per-developer loop of `_calculate_developer_metrics`
(WorkItemOperations.py lines 937-1006). -/
structure DevAcc where
  completed_items : ℕ
  items_with_data : ℕ
  items_with_efficiency : ℕ
  items_with_estimated : ℕ
  on_time_count : ℕ
  reopened_items : ℕ
  total_fair_efficiency : ℚ
  total_delivery_score : ℚ
  total_active_hours : ℚ
  total_estimated_hours : ℚ
  total_days_ahead_behind : ℚ
  tc_early : ℕ
  tc_on_time : ℕ
  tc_late_1_3 : ℕ
  tc_late_4_7 : ℕ
  tc_late_8_14 : ℕ
  tc_late_15_plus : ℕ
deriving DecidableEq

/-- All-zero accumulator (loop initialisers, lines 938-955). -/
def emptyAcc : DevAcc := ⟨0, 0, 0, 0, 0, 0, 0, 0, 0, 0, 0, 0, 0, 0, 0, 0, 0⟩

/-- Loop statement `if item.get('state', '').lower() in [...]` (line 962). -/
def stepCompleted (item : AggItem) (acc : DevAcc) : DevAcc :=
  if isCompletedState item.state then
    { acc with completed_items := acc.completed_items + 1 } else acc

/-- Loop statement `items_with_data += 1` (line 968). -/
def stepData (acc : DevAcc) : DevAcc :=
  { acc with items_with_data := acc.items_with_data + 1 }

/-- Loop statement `if estimated_hours_item > 0: items_with_estimated += 1`
(lines 973-974). -/
def stepEstimated (e : EfficiencyMetrics) (acc : DevAcc) : DevAcc :=
  if 0 < e.estimated_time_hours then
    { acc with items_with_estimated := acc.items_with_estimated + 1 } else acc

/-- Loop statements for `items_with_efficiency`/`total_fair_efficiency`
(lines 977-979). -/
def stepEfficiency (e : EfficiencyMetrics) (acc : DevAcc) : DevAcc :=
  if 0 < e.active_time_hours ∧ 0 < e.estimated_time_hours then
    { acc with items_with_efficiency := acc.items_with_efficiency + 1,
               total_fair_efficiency :=
                 acc.total_fair_efficiency + e.fair_efficiency_score }
  else acc

/-- Loop statements accumulating the unconditional totals (lines 982-985). -/
def stepTotals (e : EfficiencyMetrics) (acc : DevAcc) : DevAcc :=
  { acc with total_delivery_score := acc.total_delivery_score + e.delivery_score,
             total_active_hours := acc.total_active_hours + e.active_time_hours,
             total_estimated_hours := acc.total_estimated_hours + e.estimated_time_hours,
             total_days_ahead_behind :=
               acc.total_days_ahead_behind + e.days_ahead_behind }

/-- Loop statement `if efficiency_data.get('was_reopened', False)` (lines 987-988). -/
def stepReopened (e : EfficiencyMetrics) (acc : DevAcc) : DevAcc :=
  if e.was_reopened then { acc with reopened_items := acc.reopened_items + 1 }
  else acc

/-- Delivery-timing bucketing of `days_diff` (lines 991-1006). -/
def stepTiming (e : EfficiencyMetrics) (acc : DevAcc) : DevAcc :=
  let d := e.days_ahead_behind
  if d ≤ 0 then
    let acc := if d ≤ -1 then { acc with tc_early := acc.tc_early + 1 }
      else { acc with tc_on_time := acc.tc_on_time + 1 }
    { acc with on_time_count := acc.on_time_count + 1 }
  else if d ≤ 3 then { acc with tc_late_1_3 := acc.tc_late_1_3 + 1 }
  else if d ≤ 7 then { acc with tc_late_4_7 := acc.tc_late_4_7 + 1 }
  else if d ≤ 14 then { acc with tc_late_8_14 := acc.tc_late_8_14 + 1 }
  else { acc with tc_late_15_plus := acc.tc_late_15_plus + 1 }

/-- One iteration of the `for item in work_items` loop of
`_calculate_developer_metrics` (lines 957-1006): the statement sequence of
the loop body, composed in source order. -/
def stepItem (acc : DevAcc) (item : AggItem) : DevAcc :=
  let acc := stepCompleted item acc
  match item.efficiency with
  | none => acc
  | some e =>
    if anyTruthy e then
      stepTiming e (stepReopened e (stepTotals e (stepEfficiency e
        (stepEstimated e (stepData acc)))))
    else acc

/-- The loop of `_calculate_developer_metrics` over a developer's items. -/
def accOf (items : List AggItem) : DevAcc := items.foldl stepItem emptyAcc

/-- Confidence factor (lines 1016-1017):
`min(1.0, (items_with_efficiency / items_with_estimated) * 3)`, with the
quotient taken as 0 when `items_with_estimated` is 0. -/
def confFactor (iwe iwest : ℕ) : ℚ :=
  min 1 ((if 0 < iwest then (iwe : ℚ) / (iwest : ℚ) else 0) * 3)

/-- `average_fair_efficiency` before the final rounding (lines 1011-1018):
mean of the accumulated fair scores over the qualifying items, scaled by the
confidence factor; 0 when no item qualifies. -/
def avgFairEfficiency (items : List AggItem) : ℚ :=
  let a := accOf items
  if 0 < a.items_with_efficiency then
    a.total_fair_efficiency / (a.items_with_efficiency : ℚ) *
      confFactor a.items_with_efficiency a.items_with_estimated
  else 0

/-- `on_time_delivery_percentage` before the final rounding (line 1025). -/
def onTimeDeliveryPercentage (items : List AggItem) : ℚ :=
  let a := accOf items
  if 0 < a.items_with_data then (a.on_time_count : ℚ) / (a.items_with_data : ℚ) * 100
  else 0

/-- `average_delivery_score` before the final rounding (line 1026). -/
def averageDeliveryScore (items : List AggItem) : ℚ :=
  let a := accOf items
  if 0 < a.items_with_data then a.total_delivery_score / (a.items_with_data : ℚ)
  else 0

/-- An item that enters the `items_with_data` branch: it has an efficiency
record with at least one truthy entry. -/
def hasData (item : AggItem) : Bool :=
  match item.efficiency with
  | some e => anyTruthy e
  | none => false

/-- An item counted in `items_with_estimated`. -/
def hasEstimated (item : AggItem) : Bool :=
  match item.efficiency with
  | some e => anyTruthy e && decide (0 < e.estimated_time_hours)
  | none => false

/-- An item counted in `items_with_efficiency`: positive active time and
positive estimated time. -/
def qualifiesForEfficiency (item : AggItem) : Bool :=
  match item.efficiency with
  | some e => anyTruthy e && decide (0 < e.active_time_hours) &&
      decide (0 < e.estimated_time_hours)
  | none => false

/-- The item's fair efficiency score (0 without a record). -/
def fairOf (item : AggItem) : ℚ :=
  match item.efficiency with
  | some e => e.fair_efficiency_score
  | none => 0

/-- Sum of fair efficiency scores over the items counted in
`items_with_efficiency`. -/
def sumFairQualifying (items : List AggItem) : ℚ :=
  ((items.filter qualifiesForEfficiency).map fairOf).sum

/-- Number of items counted in `items_with_efficiency`. -/
def countQualifying (items : List AggItem) : ℕ :=
  (items.filter qualifiesForEfficiency).length

/-- Number of items counted in `items_with_estimated`. -/
def countEstimated (items : List AggItem) : ℕ :=
  (items.filter hasEstimated).length

/-- An item counted in `on_time_count`: has data and
`days_ahead_behind ≤ 0`. -/
def countsOnTime (item : AggItem) : Bool :=
  match item.efficiency with
  | some e => anyTruthy e && decide (e.days_ahead_behind ≤ 0)
  | none => false

/-- An item counted in the `on_time` delivery-timing bucket:
has data and `-1 < days_ahead_behind ≤ 0`. -/
def countsOnTimeBucket (item : AggItem) : Bool :=
  match item.efficiency with
  | some e => anyTruthy e && decide (e.days_ahead_behind ≤ 0) &&
      !(decide (e.days_ahead_behind ≤ -1))
  | none => false

/-- The item's delivery score (0 without a record). -/
def deliveryOf (item : AggItem) : ℚ :=
  match item.efficiency with
  | some e => e.delivery_score
  | none => 0

/-- The item's estimated hours (0 without a record). -/
def estimatedOf (item : AggItem) : ℚ :=
  match item.efficiency with
  | some e => e.estimated_time_hours
  | none => 0

lemma stepCompleted_eq (it : AggItem) (acc : DevAcc) :
    stepCompleted it acc =
      ⟨acc.completed_items + (if isCompletedState it.state then 1 else 0),
       acc.items_with_data, acc.items_with_efficiency, acc.items_with_estimated,
       acc.on_time_count, acc.reopened_items, acc.total_fair_efficiency,
       acc.total_delivery_score, acc.total_active_hours,
       acc.total_estimated_hours, acc.total_days_ahead_behind, acc.tc_early,
       acc.tc_on_time, acc.tc_late_1_3, acc.tc_late_4_7, acc.tc_late_8_14,
       acc.tc_late_15_plus⟩ := by
  unfold stepCompleted
  split_ifs <;> rfl

lemma stepData_eq (acc : DevAcc) :
    stepData acc =
      ⟨acc.completed_items, acc.items_with_data + 1, acc.items_with_efficiency,
       acc.items_with_estimated, acc.on_time_count, acc.reopened_items,
       acc.total_fair_efficiency, acc.total_delivery_score,
       acc.total_active_hours, acc.total_estimated_hours,
       acc.total_days_ahead_behind, acc.tc_early, acc.tc_on_time,
       acc.tc_late_1_3, acc.tc_late_4_7, acc.tc_late_8_14,
       acc.tc_late_15_plus⟩ := rfl

lemma stepEstimated_eq (e : EfficiencyMetrics) (acc : DevAcc) :
    stepEstimated e acc =
      ⟨acc.completed_items, acc.items_with_data, acc.items_with_efficiency,
       acc.items_with_estimated + (if 0 < e.estimated_time_hours then 1 else 0),
       acc.on_time_count, acc.reopened_items, acc.total_fair_efficiency,
       acc.total_delivery_score, acc.total_active_hours,
       acc.total_estimated_hours, acc.total_days_ahead_behind, acc.tc_early,
       acc.tc_on_time, acc.tc_late_1_3, acc.tc_late_4_7, acc.tc_late_8_14,
       acc.tc_late_15_plus⟩ := by
  unfold stepEstimated
  split_ifs <;> rfl

lemma stepEfficiency_eq (e : EfficiencyMetrics) (acc : DevAcc) :
    stepEfficiency e acc =
      ⟨acc.completed_items, acc.items_with_data,
       acc.items_with_efficiency +
         (if 0 < e.active_time_hours ∧ 0 < e.estimated_time_hours then 1 else 0),
       acc.items_with_estimated, acc.on_time_count, acc.reopened_items,
       acc.total_fair_efficiency +
         (if 0 < e.active_time_hours ∧ 0 < e.estimated_time_hours then
            e.fair_efficiency_score else 0),
       acc.total_delivery_score, acc.total_active_hours,
       acc.total_estimated_hours, acc.total_days_ahead_behind, acc.tc_early,
       acc.tc_on_time, acc.tc_late_1_3, acc.tc_late_4_7, acc.tc_late_8_14,
       acc.tc_late_15_plus⟩ := by
  unfold stepEfficiency
  split_ifs <;> simp

lemma stepTotals_eq (e : EfficiencyMetrics) (acc : DevAcc) :
    stepTotals e acc =
      ⟨acc.completed_items, acc.items_with_data, acc.items_with_efficiency,
       acc.items_with_estimated, acc.on_time_count, acc.reopened_items,
       acc.total_fair_efficiency,
       acc.total_delivery_score + e.delivery_score,
       acc.total_active_hours + e.active_time_hours,
       acc.total_estimated_hours + e.estimated_time_hours,
       acc.total_days_ahead_behind + e.days_ahead_behind, acc.tc_early,
       acc.tc_on_time, acc.tc_late_1_3, acc.tc_late_4_7, acc.tc_late_8_14,
       acc.tc_late_15_plus⟩ := rfl

lemma stepReopened_eq (e : EfficiencyMetrics) (acc : DevAcc) :
    stepReopened e acc =
      ⟨acc.completed_items, acc.items_with_data, acc.items_with_efficiency,
       acc.items_with_estimated, acc.on_time_count,
       acc.reopened_items + (if e.was_reopened then 1 else 0),
       acc.total_fair_efficiency, acc.total_delivery_score,
       acc.total_active_hours, acc.total_estimated_hours,
       acc.total_days_ahead_behind, acc.tc_early, acc.tc_on_time,
       acc.tc_late_1_3, acc.tc_late_4_7, acc.tc_late_8_14,
       acc.tc_late_15_plus⟩ := by
  unfold stepReopened
  split_ifs <;> simp_all

lemma stepTiming_eq (e : EfficiencyMetrics) (acc : DevAcc) :
    stepTiming e acc =
      ⟨acc.completed_items, acc.items_with_data, acc.items_with_efficiency,
       acc.items_with_estimated,
       acc.on_time_count + (if e.days_ahead_behind ≤ 0 then 1 else 0),
       acc.reopened_items, acc.total_fair_efficiency,
       acc.total_delivery_score, acc.total_active_hours,
       acc.total_estimated_hours, acc.total_days_ahead_behind,
       acc.tc_early +
         (if e.days_ahead_behind ≤ 0 then
            (if e.days_ahead_behind ≤ -1 then 1 else 0) else 0),
       acc.tc_on_time +
         (if e.days_ahead_behind ≤ 0 then
            (if e.days_ahead_behind ≤ -1 then 0 else 1) else 0),
       acc.tc_late_1_3 +
         (if e.days_ahead_behind ≤ 0 then 0
          else if e.days_ahead_behind ≤ 3 then 1 else 0),
       acc.tc_late_4_7 +
         (if e.days_ahead_behind ≤ 0 then 0
          else if e.days_ahead_behind ≤ 3 then 0
          else if e.days_ahead_behind ≤ 7 then 1 else 0),
       acc.tc_late_8_14 +
         (if e.days_ahead_behind ≤ 0 then 0
          else if e.days_ahead_behind ≤ 3 then 0
          else if e.days_ahead_behind ≤ 7 then 0
          else if e.days_ahead_behind ≤ 14 then 1 else 0),
       acc.tc_late_15_plus +
         (if e.days_ahead_behind ≤ 0 then 0
          else if e.days_ahead_behind ≤ 3 then 0
          else if e.days_ahead_behind ≤ 7 then 0
          else if e.days_ahead_behind ≤ 14 then 0 else 1)⟩ := by
  simp only [stepTiming]
  split_ifs <;> rfl

lemma stepItem_items_with_data (acc : DevAcc) (it : AggItem) :
    (stepItem acc it).items_with_data =
      acc.items_with_data + (if hasData it then 1 else 0) := by
  cases he : it.efficiency with
  | none => simp [stepItem, hasData, he, stepCompleted_eq]
  | some e =>
    by_cases ha : anyTruthy e <;>
      simp [stepItem, hasData, he, ha, stepCompleted_eq, stepData_eq,
        stepEstimated_eq, stepEfficiency_eq, stepTotals_eq, stepReopened_eq,
        stepTiming_eq]

lemma stepItem_items_with_efficiency (acc : DevAcc) (it : AggItem) :
    (stepItem acc it).items_with_efficiency =
      acc.items_with_efficiency + (if qualifiesForEfficiency it then 1 else 0) := by
  cases he : it.efficiency with
  | none => simp [stepItem, qualifiesForEfficiency, he, stepCompleted_eq]
  | some e =>
    by_cases ha : anyTruthy e <;>
      simp [stepItem, qualifiesForEfficiency, he, ha, stepCompleted_eq,
        stepData_eq, stepEstimated_eq, stepEfficiency_eq, stepTotals_eq,
        stepReopened_eq, stepTiming_eq]

lemma stepItem_items_with_estimated (acc : DevAcc) (it : AggItem) :
    (stepItem acc it).items_with_estimated =
      acc.items_with_estimated + (if hasEstimated it then 1 else 0) := by
  cases he : it.efficiency with
  | none => simp [stepItem, hasEstimated, he, stepCompleted_eq]
  | some e =>
    by_cases ha : anyTruthy e <;>
      simp [stepItem, hasEstimated, he, ha, stepCompleted_eq, stepData_eq,
        stepEstimated_eq, stepEfficiency_eq, stepTotals_eq, stepReopened_eq,
        stepTiming_eq]

lemma stepItem_total_fair (acc : DevAcc) (it : AggItem) :
    (stepItem acc it).total_fair_efficiency =
      acc.total_fair_efficiency +
        (if qualifiesForEfficiency it then fairOf it else 0) := by
  cases he : it.efficiency with
  | none => simp [stepItem, qualifiesForEfficiency, fairOf, he, stepCompleted_eq]
  | some e =>
    by_cases ha : anyTruthy e <;>
      simp [stepItem, qualifiesForEfficiency, fairOf, he, ha, stepCompleted_eq,
        stepData_eq, stepEstimated_eq, stepEfficiency_eq, stepTotals_eq,
        stepReopened_eq, stepTiming_eq]

lemma stepItem_on_time_count (acc : DevAcc) (it : AggItem) :
    (stepItem acc it).on_time_count =
      acc.on_time_count + (if countsOnTime it then 1 else 0) := by
  cases he : it.efficiency with
  | none => simp [stepItem, countsOnTime, he, stepCompleted_eq]
  | some e =>
    by_cases ha : anyTruthy e <;>
      simp [stepItem, countsOnTime, he, ha, stepCompleted_eq, stepData_eq,
        stepEstimated_eq, stepEfficiency_eq, stepTotals_eq, stepReopened_eq,
        stepTiming_eq]

lemma stepItem_tc_on_time (acc : DevAcc) (it : AggItem) :
    (stepItem acc it).tc_on_time =
      acc.tc_on_time + (if countsOnTimeBucket it then 1 else 0) := by
  cases he : it.efficiency with
  | none => simp [stepItem, countsOnTimeBucket, he, stepCompleted_eq]
  | some e =>
    by_cases ha : anyTruthy e <;>
      simp [stepItem, countsOnTimeBucket, he, ha, stepCompleted_eq, stepData_eq,
        stepEstimated_eq, stepEfficiency_eq, stepTotals_eq, stepReopened_eq,
        stepTiming_eq] <;>
      split_ifs <;> simp_all <;> linarith

lemma stepItem_total_delivery (acc : DevAcc) (it : AggItem) :
    (stepItem acc it).total_delivery_score =
      acc.total_delivery_score + (if hasData it then deliveryOf it else 0) := by
  cases he : it.efficiency with
  | none => simp [stepItem, hasData, deliveryOf, he, stepCompleted_eq]
  | some e =>
    by_cases ha : anyTruthy e <;>
      simp [stepItem, hasData, deliveryOf, he, ha, stepCompleted_eq,
        stepData_eq, stepEstimated_eq, stepEfficiency_eq, stepTotals_eq,
        stepReopened_eq, stepTiming_eq]

lemma stepItem_total_estimated (acc : DevAcc) (it : AggItem) :
    (stepItem acc it).total_estimated_hours =
      acc.total_estimated_hours + (if hasData it then estimatedOf it else 0) := by
  cases he : it.efficiency with
  | none => simp [stepItem, hasData, estimatedOf, he, stepCompleted_eq]
  | some e =>
    by_cases ha : anyTruthy e <;>
      simp [stepItem, hasData, estimatedOf, he, ha, stepCompleted_eq,
        stepData_eq, stepEstimated_eq, stepEfficiency_eq, stepTotals_eq,
        stepReopened_eq, stepTiming_eq]

lemma accOf_append_single (prev : List AggItem) (it : AggItem) :
    accOf (prev ++ [it]) = stepItem (accOf prev) it := by
  unfold accOf
  rw [List.foldl_append]
  rfl

lemma foldl_items_with_efficiency (items : List AggItem) : ∀ a : DevAcc,
    (items.foldl stepItem a).items_with_efficiency =
      a.items_with_efficiency + (items.filter qualifiesForEfficiency).length := by
  induction items with
  | nil => intro a; simp
  | cons it rest ih =>
    intro a
    simp only [List.foldl_cons, List.filter_cons]
    rw [ih, stepItem_items_with_efficiency]
    by_cases h : qualifiesForEfficiency it <;> simp [h] <;> omega

lemma foldl_items_with_estimated (items : List AggItem) : ∀ a : DevAcc,
    (items.foldl stepItem a).items_with_estimated =
      a.items_with_estimated + (items.filter hasEstimated).length := by
  induction items with
  | nil => intro a; simp
  | cons it rest ih =>
    intro a
    simp only [List.foldl_cons, List.filter_cons]
    rw [ih, stepItem_items_with_estimated]
    by_cases h : hasEstimated it <;> simp [h] <;> omega

lemma foldl_total_fair (items : List AggItem) : ∀ a : DevAcc,
    (items.foldl stepItem a).total_fair_efficiency =
      a.total_fair_efficiency +
        ((items.filter qualifiesForEfficiency).map fairOf).sum := by
  induction items with
  | nil => intro a; simp
  | cons it rest ih =>
    intro a
    simp only [List.foldl_cons, List.filter_cons]
    rw [ih, stepItem_total_fair]
    by_cases h : qualifiesForEfficiency it <;> simp [h] <;> ring

lemma foldl_items_with_data (items : List AggItem) : ∀ a : DevAcc,
    (items.foldl stepItem a).items_with_data =
      a.items_with_data + (items.filter hasData).length := by
  induction items with
  | nil => intro a; simp
  | cons it rest ih =>
    intro a
    simp only [List.foldl_cons, List.filter_cons]
    rw [ih, stepItem_items_with_data]
    by_cases h : hasData it <;> simp [h] <;> omega

lemma foldl_on_time_count (items : List AggItem) : ∀ a : DevAcc,
    (items.foldl stepItem a).on_time_count =
      a.on_time_count + (items.filter countsOnTime).length := by
  induction items with
  | nil => intro a; simp
  | cons it rest ih =>
    intro a
    simp only [List.foldl_cons, List.filter_cons]
    rw [ih, stepItem_on_time_count]
    by_cases h : countsOnTime it <;> simp [h] <;> omega

lemma filter_length_mono {p q : AggItem → Bool} (items : List AggItem)
    (h : ∀ x, p x = true → q x = true) :
    (items.filter p).length ≤ (items.filter q).length := by
  induction items with
  | nil => simp
  | cons it rest ih =>
    simp only [List.filter_cons]
    by_cases hp : p it
    · rw [if_pos hp, if_pos (h it hp)]
      simp only [List.length_cons]
      exact Nat.succ_le_succ ih
    · rw [if_neg hp]
      by_cases hq : q it
      · rw [if_pos hq]
        simp only [List.length_cons]
        exact ih.trans (Nat.le_succ _)
      · rw [if_neg hq]
        exact ih

lemma countsOnTime_hasData (it : AggItem) (h : countsOnTime it = true) :
    hasData it = true := by
  unfold countsOnTime at h
  unfold hasData
  cases he : it.efficiency with
  | none => rw [he] at h; exact absurd h (by simp)
  | some e => rw [he] at h; simp_all

/-- `on_time_count` never exceeds `items_with_data`. -/
lemma on_time_le_data (items : List AggItem) :
    (accOf items).on_time_count ≤ (accOf items).items_with_data := by
  unfold accOf
  rw [foldl_on_time_count, foldl_items_with_data]
  simp only [emptyAcc]
  have h := filter_length_mono items countsOnTime_hasData
  omega

lemma round2_mono {x y : ℚ} (h : x ≤ y) : round2 x ≤ round2 y := by
  unfold round2
  have h1 : ⌊x * 100 + 1/2⌋ ≤ ⌊y * 100 + 1/2⌋ := Int.floor_le_floor (by linarith)
  have h2 : ((⌊x * 100 + 1/2⌋ : ℤ) : ℚ) ≤ ((⌊y * 100 + 1/2⌋ : ℤ) : ℚ) := by
    exact_mod_cast h1
  linarith

lemma round2_zero : round2 0 = 0 := by
  unfold round2
  norm_num

lemma round2_int_div_100 (k : ℤ) : round2 ((k : ℚ) / 100) = (k : ℚ) / 100 := by
  unfold round2
  rw [div_mul_cancel₀ _ (by norm_num : (100 : ℚ) ≠ 0), Int.floor_int_add]
  norm_num

/-- Every metrics record the calculator emits has a non-empty
`capping_applied` string, so `any(efficiency_data.values())` is always
true on a non-empty record. -/
lemma anyTruthy_true (e : EfficiencyMetrics) : anyTruthy e = true := by
  simp [anyTruthy, cappingTruthy]

/-- Explicit form of the calculator on the main path (at least two history
entries, not ignored). -/
lemma calcMain (cfg : ScoringConfig) (wi : WorkItem) (n : ℕ)
    (stack : StackResult) (ts te : Option String) (h2 : 2 ≤ n)
    (hig : stack.should_ignore = false) :
    calculateFairEfficiencyMetrics cfg wi n stack ts te =
      ⟨round2 (applyCapping (calcEstimatedTime wi ts te)
          stack.total_productive_hours).1,
       round2 stack.total_productive_hours,
       round2 stack.total_paused_hours,
       round2 stack.total_time_all_states,
       round2 (calcEstimatedTime wi ts te),
       round2 (traditionalEfficiency
         (applyCapping (calcEstimatedTime wi ts te)
           stack.total_productive_hours).1
         (calcEstimatedTime wi ts te) cfg.max_efficiency_cap),
       round2 (fairEfficiencyFormula
         (applyCapping (calcEstimatedTime wi ts te)
           stack.total_productive_hours).1
         (if isCompletedState wi.state then
            calcEstimatedTime wi ts te * cfg.completion_bonus_percentage else 0)
         (calcEstimatedTime wi ts te)
         (calcDeliveryTiming cfg wi.target_date wi.closed_date).late_penalty_mitigation
         cfg.max_efficiency_cap),
       round2 (calcDeliveryTiming cfg wi.target_date wi.closed_date).delivery_score,
       round2 (if isCompletedState wi.state then
          calcEstimatedTime wi ts te * cfg.completion_bonus_percentage else 0),
       round2 (calcDeliveryTiming cfg wi.target_date wi.closed_date).timing_bonus_hours,
       (calcDeliveryTiming cfg wi.target_date wi.closed_date).days_difference,
       stack.was_reopened,
       round2 stack.active_after_reopen_hours,
       stack.is_completed,
       stack.should_ignore,
       (applyCapping (calcEstimatedTime wi ts te)
         stack.total_productive_hours).2⟩ := by
  have hn : ¬ n < 2 := by omega
  simp only [calculateFairEfficiencyMetrics, hn, hig, if_false, Bool.false_eq_true]

/-- The capped active hours never exceed the raw productive hours. -/
lemma applyCapping_fst_le (est raw : ℚ) (hraw : 0 ≤ raw) :
    (applyCapping est raw).1 ≤ raw := by
  simp only [applyCapping]
  split_ifs with h1 h2
  · exact hraw
  · simpa using le_of_lt h2
  · simp

/-- Exactly when the capped hours equal the raw hours. -/
lemma applyCapping_eq_iff (est raw : ℚ) :
    (applyCapping est raw).1 = raw ↔
      (applyCapping est raw).2 = CappingReason.no_capping_needed ∨
      ((applyCapping est raw).2 = CappingReason.no_estimate_exclusion ∧ raw = 0) := by
  simp only [applyCapping]
  split_ifs with h1 h2
  · simp [eq_comm]
  · simp [ne_of_lt h2]
  · simp

/-- The fair efficiency formula never exceeds a non-negative cap. -/
lemma fairFormula_le_cap (a b c d cap : ℚ) (hcap : 0 ≤ cap) :
    fairEfficiencyFormula a b c d cap ≤ cap := by
  simp only [fairEfficiencyFormula]
  split_ifs
  · exact min_le_right _ _
  · exact hcap

/-- The traditional efficiency never exceeds a non-negative cap. -/
lemma traditionalEfficiency_le_cap (a b cap : ℚ) (hcap : 0 ≤ cap) :
    traditionalEfficiency a b cap ≤ cap := by
  unfold traditionalEfficiency
  split_ifs
  · exact min_le_right _ _
  · exact hcap

/-- A missing or unparseable date yields the default delivery metrics. -/
lemma calcDeliveryTiming_default (cfg : ScoringConfig)
    (target closed : DateField)
    (h : target = DateField.missing ∨ target = DateField.malformed ∨
         closed = DateField.missing ∨ closed = DateField.malformed) :
    calcDeliveryTiming cfg target closed = ⟨100, 0, 0, 0⟩ := by
  rcases h with h | h | h | h <;> subst h <;>
    first
      | (cases closed <;> rfl)
      | (cases target <;> rfl)

/-- The delivery-score column of the spec's tier table (spec section 4.4,
step 4), written from the spec's words for comparison with the code. -/
def specDeliveryScore (d : ℚ) : ℚ :=
  if d ≤ -7 then 130 else if d ≤ -3 then 120 else if d ≤ -1 then 110
  else if d ≤ 0 then 100 else if d ≤ 3 then 90 else if d ≤ 7 then 80
  else if d ≤ 14 then 70 else 60

/-- The timing-bonus column of the spec's tier table. -/
def specTimingBonus (d : ℚ) : ℚ :=
  if d ≤ -7 then abs d * 1 else if d ≤ -3 then abs d * (1/2)
  else if d ≤ -1 then abs d * (1/4) else 0

/-- The late-penalty-mitigation column of the spec's tier table. -/
def specMitigation (d : ℚ) : ℚ :=
  if d ≤ 0 then 0 else if d ≤ 3 then 2 else if d ≤ 7 then 4
  else if d ≤ 14 then 6 else 8

/-- C4: with the default configuration, for parseable target and closed
dates the delivery metrics follow the spec's tier table as a function of
`days_difference = (closed - target)/86400`, and in particular closing 5
days early yields score 120 with a 2.5-hour bonus while closing 10 days
late yields score 70 with 6 hours of mitigation. -/
theorem c4_delivery_tiers (t c : ℚ) :
    ((calcDeliveryTiming defaultConfig (DateField.parsed t)
        (DateField.parsed c)).delivery_score =
      specDeliveryScore ((c - t) / 86400) ∧
     (calcDeliveryTiming defaultConfig (DateField.parsed t)
        (DateField.parsed c)).timing_bonus_hours =
      specTimingBonus ((c - t) / 86400) ∧
     (calcDeliveryTiming defaultConfig (DateField.parsed t)
        (DateField.parsed c)).late_penalty_mitigation =
      specMitigation ((c - t) / 86400)) ∧
    (calcDeliveryTiming defaultConfig (DateField.parsed 0)
        (DateField.parsed (-432000))).delivery_score = 120 ∧
    (calcDeliveryTiming defaultConfig (DateField.parsed 0)
        (DateField.parsed (-432000))).timing_bonus_hours = 5/2 ∧
    (calcDeliveryTiming defaultConfig (DateField.parsed 0)
        (DateField.parsed 864000)).delivery_score = 70 ∧
    (calcDeliveryTiming defaultConfig (DateField.parsed 0)
        (DateField.parsed 864000)).late_penalty_mitigation = 6 := by
  refine ⟨⟨?_, ?_, ?_⟩, ?_⟩
  · simp only [calcDeliveryTiming, earlyDeliveryBonus, lateDeliveryPenalty,
      defaultConfig, specDeliveryScore]
    norm_num
    split_ifs <;> first | rfl | linarith
  · simp only [calcDeliveryTiming, earlyDeliveryBonus, lateDeliveryPenalty,
      defaultConfig, specTimingBonus]
    norm_num
    split_ifs <;> first | rfl | linarith
  · simp only [calcDeliveryTiming, earlyDeliveryBonus, lateDeliveryPenalty,
      defaultConfig, specMitigation]
    norm_num
    split_ifs <;> first | rfl | linarith
  · norm_num [calcDeliveryTiming, earlyDeliveryBonus, lateDeliveryPenalty,
      defaultConfig, round1]

/-- C5: the resolved estimate is `original_estimate` exactly when present
and positive, else 0; the timeframe arguments never alter it; and the
disabled timeframe adjustment returns its input estimate unchanged. -/
theorem c5_estimate_resolution (wi : WorkItem) (ts te tsB teB : Option String)
    (base : ℚ) :
    calcEstimatedTime wi ts te =
      (match wi.original_estimate with
       | some v => if 0 < v then v else 0
       | none => 0) ∧
    calcEstimatedTime wi ts te = calcEstimatedTime wi tsB teB ∧
    adjustEstimateForTimeframe wi base ts te = base :=
  ⟨rfl, rfl, rfl⟩

/-- C6: when target or closed date is missing or unparseable, the
delivery-timing computation returns the defaults
`delivery_score = 100, timing_bonus_hours = 0,
late_penalty_mitigation = 0, days_difference = 0` (total function: it
cannot raise). -/
theorem c6_missing_or_malformed_dates (cfg : ScoringConfig)
    (target closed : DateField)
    (h : target = DateField.missing ∨ target = DateField.malformed ∨
         closed = DateField.missing ∨ closed = DateField.malformed) :
    calcDeliveryTiming cfg target closed = ⟨100, 0, 0, 0⟩ :=
  calcDeliveryTiming_default cfg target closed h

/-- C6 witness: a missing target date with a parseable closed date. -/
theorem c6_missing_or_malformed_dates_witness :
    (DateField.missing = DateField.missing ∨
     DateField.missing = DateField.malformed ∨
     DateField.parsed 0 = DateField.missing ∨
     DateField.parsed 0 = DateField.malformed) ∧
    calcDeliveryTiming defaultConfig DateField.missing (DateField.parsed 0) =
      ⟨100, 0, 0, 0⟩ :=
  ⟨Or.inl rfl,
   c6_missing_or_malformed_dates defaultConfig DateField.missing
     (DateField.parsed 0) (Or.inl rfl)⟩

/-- C3 counterexample: a scored item with no estimate and zero raw
productive hours has `active_time_hours = raw_active_time_hours` while the
recorded capping reason is `no_estimate_exclusion`, not
`no_capping_needed` — the claimed "equality iff no_capping_needed" fails. -/
theorem c3_counterexample :
    (calculateFairEfficiencyMetrics defaultConfig
        ⟨"Active", none, DateField.missing, DateField.missing⟩ 2
        ⟨false, false, false, 0, 0, 0, 0⟩ none none).active_time_hours =
      (calculateFairEfficiencyMetrics defaultConfig
        ⟨"Active", none, DateField.missing, DateField.missing⟩ 2
        ⟨false, false, false, 0, 0, 0, 0⟩ none none).raw_active_time_hours ∧
    (calculateFairEfficiencyMetrics defaultConfig
        ⟨"Active", none, DateField.missing, DateField.missing⟩ 2
        ⟨false, false, false, 0, 0, 0, 0⟩ none none).capping_applied ≠
      CappingReason.no_capping_needed := by
  have hc : isCompletedState "Active" = false := by decide
  norm_num [calculateFairEfficiencyMetrics, calcEstimatedTime, applyCapping,
    calcDeliveryTiming, defaultDeliveryMetrics, traditionalEfficiency,
    fairEfficiencyFormula, round2, hc]
  decide

/-- C3 (amended): capped active hours never exceed raw hours, and the
emitted (rounded) fields preserve the inequality; equality of the capped and
raw values holds iff the capping reason is `no_capping_needed`, or the
reason is `no_estimate_exclusion` and the raw hours are 0 (the no-estimate
zeroing had nothing to zero). -/
theorem c3_amended (est raw : ℚ) (cfg : ScoringConfig) (wi : WorkItem)
    (n : ℕ) (stack : StackResult) (ts te : Option String)
    (hraw : 0 ≤ raw) (hraw2 : 0 ≤ stack.total_productive_hours) :
    (applyCapping est raw).1 ≤ raw ∧
    ((applyCapping est raw).1 = raw ↔
      (applyCapping est raw).2 = CappingReason.no_capping_needed ∨
      ((applyCapping est raw).2 = CappingReason.no_estimate_exclusion ∧
        raw = 0)) ∧
    (calculateFairEfficiencyMetrics cfg wi n stack ts te).active_time_hours ≤
      (calculateFairEfficiencyMetrics cfg wi n stack ts te).raw_active_time_hours := by
  refine ⟨applyCapping_fst_le est raw hraw, applyCapping_eq_iff est raw, ?_⟩
  by_cases h2 : n < 2
  · simp [calculateFairEfficiencyMetrics, h2, emptyEfficiencyMetrics]
  · by_cases hig : stack.should_ignore
    · simp [calculateFairEfficiencyMetrics, h2, hig, ignoredWorkItemMetrics]
    · rw [calcMain cfg wi n stack ts te (by omega) (by simpa using hig)]
      exact round2_mono (applyCapping_fst_le _ _ hraw2)

/-- C3 witness: estimate 1 with raw hours 2 (capped), on a concrete scored
item. -/
theorem c3_amended_witness :
    (0 : ℚ) ≤ 2 ∧
    (0 : ℚ) ≤ (StackResult.mk false false false 0 0 0 0).total_productive_hours ∧
    ((applyCapping 1 2).1 ≤ 2 ∧
     ((applyCapping 1 2).1 = 2 ↔
       (applyCapping 1 2).2 = CappingReason.no_capping_needed ∨
       ((applyCapping 1 2).2 = CappingReason.no_estimate_exclusion ∧
         (2 : ℚ) = 0)) ∧
     (calculateFairEfficiencyMetrics defaultConfig
        ⟨"Active", none, DateField.missing, DateField.missing⟩ 2
        ⟨false, false, false, 0, 0, 0, 0⟩ none none).active_time_hours ≤
      (calculateFairEfficiencyMetrics defaultConfig
        ⟨"Active", none, DateField.missing, DateField.missing⟩ 2
        ⟨false, false, false, 0, 0, 0, 0⟩ none none).raw_active_time_hours) :=
  ⟨by norm_num, by norm_num,
   c3_amended 1 2 defaultConfig
     ⟨"Active", none, DateField.missing, DateField.missing⟩ 2
     ⟨false, false, false, 0, 0, 0, 0⟩ none none (by norm_num) (by norm_num)⟩

/-- C9 counterexample: with estimate 0 and positive numerator, increasing
the mitigation from 0 to 2 moves the score from the zero-denominator branch
(0) to 50 — the score increases, so it is not non-increasing across the
transition. -/
theorem c9_counterexample :
    fairEfficiencyFormula 1 0 0 0 150 < fairEfficiencyFormula 1 0 0 2 150 := by
  norm_num [fairEfficiencyFormula, min_def]

/-- C9 (amended): the fair efficiency score is non-increasing in the
late-penalty mitigation whenever the numerator is non-negative and the
denominator is already positive at the smaller mitigation.  The excluded
transition (denominator 0 at the smaller mitigation with positive
numerator) can only increase the score, and is unreachable in the pipeline:
a non-positive estimate forces active hours and completion bonus to 0. -/
theorem c9_amended (act bonus est m1 m2 cap : ℚ)
    (hnum : 0 ≤ act + bonus) (hden : 0 < est + m1) (h12 : m1 ≤ m2) :
    fairEfficiencyFormula act bonus est m2 cap ≤
      fairEfficiencyFormula act bonus est m1 cap := by
  have hden2 : 0 < est + m2 := by linarith
  simp only [fairEfficiencyFormula]
  rw [if_pos hden, if_pos hden2]
  refine min_le_min ?_ le_rfl
  have h := div_le_div_of_nonneg_left hnum hden (by linarith : est + m1 ≤ est + m2)
  nlinarith

/-- C9 witness: numerator 1, estimate 1, mitigation raised from 0 to 2. -/
theorem c9_amended_witness :
    (0 : ℚ) ≤ 1 + 0 ∧ (0 : ℚ) < 1 + 0 ∧ (0 : ℚ) ≤ 2 ∧
    fairEfficiencyFormula 1 0 1 2 150 ≤ fairEfficiencyFormula 1 0 1 0 150 :=
  ⟨by norm_num, by norm_num, by norm_num,
   c9_amended 1 0 1 0 2 150 (by norm_num) (by norm_num) (by norm_num)⟩

/-- Case-insensitive membership in the hardcoded completion list, spelt
out. -/
lemma isCompletedState_iff (s : String) :
    isCompletedState s = true ↔
      lowerString s = "closed" ∨ lowerString s = "done" ∨
        lowerString s = "resolved" := by
  simp [isCompletedState, completedStates]

/-- C2 counterexample: the state "CLOSED" is not classified `completion` by
the default case-sensitive configuration, yet the code still grants the
full completion bonus (`estimated_hours × percentage = 2 ≠ 0`), because the
bonus test lowercases the state and ignores the configured list. -/
theorem c2_counterexample :
    classify "CLOSED" defaultStateConfig ≠ StateCategory.completion ∧
    (calculateFairEfficiencyMetrics defaultConfig
        ⟨"CLOSED", some 10, DateField.missing, DateField.missing⟩ 2
        ⟨false, false, false, 0, 0, 0, 0⟩ none none).completion_bonus =
      10 * defaultConfig.completion_bonus_percentage ∧
    (10 : ℚ) * defaultConfig.completion_bonus_percentage ≠ 0 := by
  have hcl : classify "CLOSED" defaultStateConfig = StateCategory.other := by
    decide
  have hc : isCompletedState "CLOSED" = true := by decide
  refine ⟨by simp [hcl], ?_, by norm_num [defaultConfig]⟩
  norm_num [calculateFairEfficiencyMetrics, calcEstimatedTime, applyCapping,
    calcDeliveryTiming, defaultDeliveryMetrics, traditionalEfficiency,
    fairEfficiencyFormula, round2, hc, defaultConfig]

/-- C2 (amended): on the scored path the completion bonus equals
`estimated_hours × completion_bonus_percentage` exactly when the lowercased
current state is one of the hardcoded "closed"/"done"/"resolved" (else 0) —
a fixed case-insensitive list, not the configured case-sensitive
completion-state list. -/
theorem c2_amended (cfg : ScoringConfig) (wi : WorkItem) (n : ℕ)
    (stack : StackResult) (ts te : Option String)
    (h2 : 2 ≤ n) (hig : stack.should_ignore = false) :
    (calculateFairEfficiencyMetrics cfg wi n stack ts te).completion_bonus =
      round2 (if lowerString wi.state = "closed" ∨
          lowerString wi.state = "done" ∨ lowerString wi.state = "resolved"
        then calcEstimatedTime wi ts te * cfg.completion_bonus_percentage
        else 0) := by
  rw [calcMain cfg wi n stack ts te h2 hig]
  show round2 (if isCompletedState wi.state then
      calcEstimatedTime wi ts te * cfg.completion_bonus_percentage else 0) = _
  by_cases hc : isCompletedState wi.state = true
  · rw [if_pos hc, if_pos ((isCompletedState_iff wi.state).mp hc)]
  · rw [if_neg hc, if_neg fun hcon => hc ((isCompletedState_iff wi.state).mpr hcon)]

/-- C2 witness: state "Done" with estimate 5 on the default configuration. -/
theorem c2_amended_witness :
    2 ≤ 2 ∧
    (StackResult.mk false false false 0 0 0 0).should_ignore = false ∧
    (calculateFairEfficiencyMetrics defaultConfig
        ⟨"Done", some 5, DateField.missing, DateField.missing⟩ 2
        ⟨false, false, false, 0, 0, 0, 0⟩ none none).completion_bonus =
      round2 (if lowerString "Done" = "closed" ∨ lowerString "Done" = "done" ∨
          lowerString "Done" = "resolved"
        then calcEstimatedTime
            ⟨"Done", some 5, DateField.missing, DateField.missing⟩ none none *
          defaultConfig.completion_bonus_percentage
        else 0) :=
  ⟨le_refl 2, rfl,
   c2_amended defaultConfig ⟨"Done", some 5, DateField.missing, DateField.missing⟩
     2 ⟨false, false, false, 0, 0, 0, 0⟩ none none (le_refl 2) rfl⟩

/-- A scoring configuration whose cap 0.006 is not a multiple of 0.01. -/
def cfgTinyCap : ScoringConfig :=
  ⟨1/5, 3/500, 8, 7, 3, 1, 130, 120, 110, 100, 1, 1/2, 1/4, 90, 80, 70, 60,
   2, 4, 6, 8⟩

/-- C8 counterexample: with the positive cap 0.006 and 0.001 productive
hours against estimate 1, both emitted scores round up to 0.01, exceeding
the cap — the bound does not survive the final rounding for every positive
cap. -/
theorem c8_counterexample :
    0 < cfgTinyCap.max_efficiency_cap ∧
    ¬((calculateFairEfficiencyMetrics cfgTinyCap
        ⟨"New", some 1, DateField.missing, DateField.missing⟩ 2
        ⟨false, false, false, 1/1000, 0, 0, 0⟩ none none).fair_efficiency_score ≤
      cfgTinyCap.max_efficiency_cap) ∧
    ¬((calculateFairEfficiencyMetrics cfgTinyCap
        ⟨"New", some 1, DateField.missing, DateField.missing⟩ 2
        ⟨false, false, false, 1/1000, 0, 0, 0⟩ none none).efficiency_percentage ≤
      cfgTinyCap.max_efficiency_cap) := by
  have hc : isCompletedState "New" = false := by decide
  norm_num [calculateFairEfficiencyMetrics, calcEstimatedTime, applyCapping,
    calcDeliveryTiming, defaultDeliveryMetrics, traditionalEfficiency,
    fairEfficiencyFormula, round2, hc, cfgTinyCap, min_def]

/-- C8 (amended): the unrounded fair and traditional efficiencies never
exceed a non-negative cap, and the emitted 2-decimal-rounded scores respect
the cap whenever the cap is an integer multiple of 0.01 (as the default
150.0 is); off-grid caps can be exceeded by the final rounding by less than
0.005. -/
theorem c8_amended (cfg : ScoringConfig) (wi : WorkItem) (n : ℕ)
    (stack : StackResult) (ts te : Option String) (p b q m : ℚ) (k : ℤ)
    (hcap : 0 < cfg.max_efficiency_cap)
    (hk : cfg.max_efficiency_cap = (k : ℚ) / 100) :
    fairEfficiencyFormula p b q m cfg.max_efficiency_cap ≤
      cfg.max_efficiency_cap ∧
    traditionalEfficiency p q cfg.max_efficiency_cap ≤
      cfg.max_efficiency_cap ∧
    (calculateFairEfficiencyMetrics cfg wi n stack ts te).fair_efficiency_score ≤
      cfg.max_efficiency_cap ∧
    (calculateFairEfficiencyMetrics cfg wi n stack ts te).efficiency_percentage ≤
      cfg.max_efficiency_cap := by
  have hcap' : (0 : ℚ) ≤ cfg.max_efficiency_cap := le_of_lt hcap
  have hfix : round2 cfg.max_efficiency_cap = cfg.max_efficiency_cap := by
    rw [hk]
    exact round2_int_div_100 k
  refine ⟨fairFormula_le_cap _ _ _ _ _ hcap',
    traditionalEfficiency_le_cap _ _ _ hcap', ?_, ?_⟩
  · by_cases h2 : n < 2
    · simp only [calculateFairEfficiencyMetrics, if_pos h2]
      simpa [emptyEfficiencyMetrics] using hcap'
    · by_cases hig : stack.should_ignore
      · simp only [calculateFairEfficiencyMetrics, if_neg h2, hig, if_true]
        simpa [ignoredWorkItemMetrics] using hcap'
      · rw [calcMain cfg wi n stack ts te (by omega) (by simpa using hig)]
        exact le_trans (round2_mono (fairFormula_le_cap _ _ _ _ _ hcap'))
          (le_of_eq hfix)
  · by_cases h2 : n < 2
    · simp only [calculateFairEfficiencyMetrics, if_pos h2]
      simpa [emptyEfficiencyMetrics] using hcap'
    · by_cases hig : stack.should_ignore
      · simp only [calculateFairEfficiencyMetrics, if_neg h2, hig, if_true]
        simpa [ignoredWorkItemMetrics] using hcap'
      · rw [calcMain cfg wi n stack ts te (by omega) (by simpa using hig)]
        exact le_trans (round2_mono (traditionalEfficiency_le_cap _ _ _ hcap'))
          (le_of_eq hfix)

/-- C1 counterexample: an ignored work item with estimate 10 — the returned
record has `should_ignore = true` but `estimated_time_hours = 10`, not 0. -/
theorem c1_counterexample :
    (calculateFairEfficiencyMetrics defaultConfig
        ⟨"Active", some 10, DateField.missing, DateField.missing⟩ 2
        ⟨true, false, false, 0, 0, 0, 0⟩ none none).should_ignore = true ∧
    (calculateFairEfficiencyMetrics defaultConfig
        ⟨"Active", some 10, DateField.missing, DateField.missing⟩ 2
        ⟨true, false, false, 0, 0, 0, 0⟩ none none).estimated_time_hours ≠ 0 := by
  norm_num [calculateFairEfficiencyMetrics, ignoredWorkItemMetrics,
    calcEstimatedTime, round2]

/-- C1 (amended): for an ignored item every quantitative field of the
returned record except `estimated_time_hours` is 0 and
`should_ignore = true`, while `estimated_time_hours` echoes the (rounded)
resolved estimate; and the record is not excluded by the developer
aggregator: appended to any developer's list it is counted in
`items_with_data`, in `on_time_count`, and its estimate enters
`total_estimated_hours`, while it adds a 0 delivery score to the total. -/
theorem c1_amended (cfg : ScoringConfig) (wi : WorkItem) (n : ℕ)
    (stack : StackResult) (ts te : Option String) (prev : List AggItem)
    (s : String) (h2 : 2 ≤ n) (hig : stack.should_ignore = true) :
    calculateFairEfficiencyMetrics cfg wi n stack ts te =
      ignoredWorkItemMetrics (calcEstimatedTime wi ts te) ∧
    (calculateFairEfficiencyMetrics cfg wi n stack ts te).active_time_hours = 0 ∧
    (calculateFairEfficiencyMetrics cfg wi n stack ts te).raw_active_time_hours = 0 ∧
    (calculateFairEfficiencyMetrics cfg wi n stack ts te).paused_time_hours = 0 ∧
    (calculateFairEfficiencyMetrics cfg wi n stack ts te).total_time_hours = 0 ∧
    (calculateFairEfficiencyMetrics cfg wi n stack ts te).efficiency_percentage = 0 ∧
    (calculateFairEfficiencyMetrics cfg wi n stack ts te).fair_efficiency_score = 0 ∧
    (calculateFairEfficiencyMetrics cfg wi n stack ts te).delivery_score = 0 ∧
    (calculateFairEfficiencyMetrics cfg wi n stack ts te).completion_bonus = 0 ∧
    (calculateFairEfficiencyMetrics cfg wi n stack ts te).delivery_timing_bonus = 0 ∧
    (calculateFairEfficiencyMetrics cfg wi n stack ts te).days_ahead_behind = 0 ∧
    (calculateFairEfficiencyMetrics cfg wi n stack ts te).should_ignore = true ∧
    (calculateFairEfficiencyMetrics cfg wi n stack ts te).estimated_time_hours =
      round2 (calcEstimatedTime wi ts te) ∧
    (accOf (prev ++ [⟨s, some (calculateFairEfficiencyMetrics cfg wi n stack
        ts te)⟩])).items_with_data = (accOf prev).items_with_data + 1 ∧
    (accOf (prev ++ [⟨s, some (calculateFairEfficiencyMetrics cfg wi n stack
        ts te)⟩])).on_time_count = (accOf prev).on_time_count + 1 ∧
    (accOf (prev ++ [⟨s, some (calculateFairEfficiencyMetrics cfg wi n stack
        ts te)⟩])).total_estimated_hours =
      (accOf prev).total_estimated_hours + round2 (calcEstimatedTime wi ts te) ∧
    (accOf (prev ++ [⟨s, some (calculateFairEfficiencyMetrics cfg wi n stack
        ts te)⟩])).total_delivery_score = (accOf prev).total_delivery_score := by
  have hn : ¬ n < 2 := by omega
  have hE : calculateFairEfficiencyMetrics cfg wi n stack ts te =
      ignoredWorkItemMetrics (calcEstimatedTime wi ts te) := by
    simp only [calculateFairEfficiencyMetrics, hn, if_false, hig, if_true]
  have hD : hasData
      ⟨s, some (ignoredWorkItemMetrics (calcEstimatedTime wi ts te))⟩ = true := by
    simp [hasData, anyTruthy_true]
  have hOT : countsOnTime
      ⟨s, some (ignoredWorkItemMetrics (calcEstimatedTime wi ts te))⟩ = true := by
    norm_num [countsOnTime, anyTruthy_true, ignoredWorkItemMetrics]
  rw [hE]
  refine ⟨rfl, rfl, rfl, rfl, rfl, rfl, rfl, rfl, rfl, rfl, rfl, rfl, rfl,
    ?_, ?_, ?_, ?_⟩
  · rw [accOf_append_single, stepItem_items_with_data, hD]
    rfl
  · rw [accOf_append_single, stepItem_on_time_count, hOT]
    rfl
  · rw [accOf_append_single, stepItem_total_estimated, hD]
    rfl
  · rw [accOf_append_single, stepItem_total_delivery, hD]
    norm_num [deliveryOf, ignoredWorkItemMetrics]

/-- C1 witness: an ignored item with estimate 10 appended to the empty
developer list. -/
theorem c1_amended_witness :
    2 ≤ 2 ∧
    (StackResult.mk true false false 0 0 0 0).should_ignore = true ∧
    calculateFairEfficiencyMetrics defaultConfig
        ⟨"Active", some 10, DateField.missing, DateField.missing⟩ 2
        ⟨true, false, false, 0, 0, 0, 0⟩ none none =
      ignoredWorkItemMetrics (calcEstimatedTime
        ⟨"Active", some 10, DateField.missing, DateField.missing⟩ none none) :=
  ⟨le_refl 2, rfl,
   (c1_amended defaultConfig ⟨"Active", some 10, DateField.missing,
      DateField.missing⟩ 2 ⟨true, false, false, 0, 0, 0, 0⟩ none none [] ""
      (le_refl 2) rfl).1⟩

/-- C7: for a developer with at least one qualifying item, the
pre-rounding `average_fair_efficiency` is the mean of the fair scores over
items with positive active and estimated time, scaled by
`confFactor = min(1, (items_with_efficiency/items_with_estimated)·3)`, where
`items_with_estimated` counts items with positive estimate regardless of
active time; the factor is 1 at 1-of-1 and 1/3 (≈ 0.33) at 1-of-9. -/
theorem c7_confidence_weighted_average (items : List AggItem)
    (h : 0 < countQualifying items) :
    avgFairEfficiency items =
      sumFairQualifying items / (countQualifying items : ℚ) *
        confFactor (countQualifying items) (countEstimated items) ∧
    confFactor 1 1 = 1 ∧ confFactor 1 9 = 1/3 := by
  have hq : (accOf items).items_with_efficiency = countQualifying items := by
    unfold accOf countQualifying
    rw [foldl_items_with_efficiency]
    simp [emptyAcc]
  have hf : (accOf items).total_fair_efficiency = sumFairQualifying items := by
    unfold accOf sumFairQualifying
    rw [foldl_total_fair]
    simp [emptyAcc]
  have hest : (accOf items).items_with_estimated = countEstimated items := by
    unfold accOf countEstimated
    rw [foldl_items_with_estimated]
    simp [emptyAcc]
  refine ⟨?_, ?_, ?_⟩
  · simp only [avgFairEfficiency]
    rw [hq, hf, hest, if_pos h]
  · norm_num [confFactor, min_def]
  · norm_num [confFactor, min_def]

/-- A developer list with one qualifying item (fair score 80, active 1,
estimate 1). -/
def wItems : List AggItem :=
  [⟨"Active", some ⟨1, 1, 0, 0, 1, 100, 80, 100, 0, 0, 0, false, 0, false,
    false, CappingReason.no_capping_needed⟩⟩]

/-- C7 witness: the singleton qualifying list. -/
theorem c7_confidence_weighted_average_witness :
    0 < countQualifying wItems ∧
    (avgFairEfficiency wItems =
      sumFairQualifying wItems / (countQualifying wItems : ℚ) *
        confFactor (countQualifying wItems) (countEstimated wItems) ∧
     confFactor 1 1 = 1 ∧ confFactor 1 9 = 1/3) :=
  ⟨by norm_num [wItems, countQualifying, List.filter, qualifiesForEfficiency,
      anyTruthy_true],
   c7_confidence_weighted_average wItems
     (by norm_num [wItems, countQualifying, List.filter,
       qualifiesForEfficiency, anyTruthy_true])⟩

/-- C10: a scored (non-ignored) item whose target or closed date is missing
gets `days_ahead_behind = 0` and `delivery_score = 100`; the developer
aggregator counts it in the `on_time` delivery-timing bucket and in the
numerator of the on-time percentage, and its default score of 100 enters
the delivery-score total — strictly raising a below-100 average delivery
score and never lowering the on-time percentage, rather than excluding the
item. -/
theorem c10_missing_dates_counted_on_time (cfg : ScoringConfig)
    (wi : WorkItem) (n : ℕ) (stack : StackResult) (ts te : Option String)
    (prev : List AggItem) (s : String)
    (h2 : 2 ≤ n) (hig : stack.should_ignore = false)
    (hd : wi.target_date = DateField.missing ∨
          wi.closed_date = DateField.missing) :
    (calculateFairEfficiencyMetrics cfg wi n stack ts te).days_ahead_behind = 0 ∧
    (calculateFairEfficiencyMetrics cfg wi n stack ts te).delivery_score = 100 ∧
    (accOf (prev ++ [⟨s, some (calculateFairEfficiencyMetrics cfg wi n stack
        ts te)⟩])).tc_on_time = (accOf prev).tc_on_time + 1 ∧
    (accOf (prev ++ [⟨s, some (calculateFairEfficiencyMetrics cfg wi n stack
        ts te)⟩])).on_time_count = (accOf prev).on_time_count + 1 ∧
    (accOf (prev ++ [⟨s, some (calculateFairEfficiencyMetrics cfg wi n stack
        ts te)⟩])).items_with_data = (accOf prev).items_with_data + 1 ∧
    (accOf (prev ++ [⟨s, some (calculateFairEfficiencyMetrics cfg wi n stack
        ts te)⟩])).total_delivery_score =
      (accOf prev).total_delivery_score + 100 ∧
    (0 < (accOf prev).items_with_data →
      averageDeliveryScore prev < 100 →
      averageDeliveryScore prev <
        averageDeliveryScore (prev ++ [⟨s,
          some (calculateFairEfficiencyMetrics cfg wi n stack ts te)⟩])) ∧
    (0 < (accOf prev).items_with_data →
      onTimeDeliveryPercentage prev ≤
        onTimeDeliveryPercentage (prev ++ [⟨s,
          some (calculateFairEfficiencyMetrics cfg wi n stack ts te)⟩])) := by
  have hdel : calcDeliveryTiming cfg wi.target_date wi.closed_date =
      ⟨100, 0, 0, 0⟩ := by
    refine calcDeliveryTiming_default cfg _ _ ?_
    rcases hd with h | h
    · exact Or.inl h
    · exact Or.inr (Or.inr (Or.inl h))
  have hE := calcMain cfg wi n stack ts te h2 hig
  rw [hdel] at hE
  have h100 : round2 (100 : ℚ) = 100 := by norm_num [round2]
  have hdays : (calculateFairEfficiencyMetrics cfg wi n stack
      ts te).days_ahead_behind = 0 := by
    rw [hE]
  have hscore : (calculateFairEfficiencyMetrics cfg wi n stack
      ts te).delivery_score = 100 := by
    rw [hE]
    exact h100
  have hD : hasData ⟨s, some (calculateFairEfficiencyMetrics cfg wi n stack
      ts te)⟩ = true := by
    simp [hasData, anyTruthy_true]
  have hOT : countsOnTime ⟨s, some (calculateFairEfficiencyMetrics cfg wi n
      stack ts te)⟩ = true := by
    norm_num [countsOnTime, anyTruthy_true, hdays]
  have hOTB : countsOnTimeBucket ⟨s, some (calculateFairEfficiencyMetrics cfg
      wi n stack ts te)⟩ = true := by
    norm_num [countsOnTimeBucket, anyTruthy_true, hdays]
  have hDel : deliveryOf ⟨s, some (calculateFairEfficiencyMetrics cfg wi n
      stack ts te)⟩ = 100 := by
    simp [deliveryOf, hscore]
  have hdata2 : (accOf (prev ++ [⟨s,
      some (calculateFairEfficiencyMetrics cfg wi n stack
        ts te)⟩])).items_with_data = (accOf prev).items_with_data + 1 := by
    rw [accOf_append_single, stepItem_items_with_data]
    simp [hD]
  have hot2 : (accOf (prev ++ [⟨s,
      some (calculateFairEfficiencyMetrics cfg wi n stack
        ts te)⟩])).on_time_count = (accOf prev).on_time_count + 1 := by
    rw [accOf_append_single, stepItem_on_time_count]
    simp [hOT]
  have htot2 : (accOf (prev ++ [⟨s,
      some (calculateFairEfficiencyMetrics cfg wi n stack
        ts te)⟩])).total_delivery_score =
      (accOf prev).total_delivery_score + 100 := by
    rw [accOf_append_single, stepItem_total_delivery]
    simp [hD, hDel]
  refine ⟨hdays, hscore, ?_, hot2, hdata2, htot2, ?_, ?_⟩
  · rw [accOf_append_single, stepItem_tc_on_time]
    simp [hOTB]
  · intro hn hlt
    have hnq : (0 : ℚ) < ((accOf prev).items_with_data : ℚ) := by
      exact_mod_cast hn
    have hn1 : 0 < (accOf prev).items_with_data + 1 := Nat.succ_pos _
    have hn1q : (0 : ℚ) < (((accOf prev).items_with_data + 1 : ℕ) : ℚ) := by
      positivity
    simp only [averageDeliveryScore] at hlt ⊢
    rw [if_pos hn] at hlt
    rw [if_pos hn, hdata2, htot2, if_pos hn1]
    rw [div_lt_div_iff₀ hnq hn1q]
    rw [div_lt_iff₀ hnq] at hlt
    push_cast
    nlinarith [hlt]
  · intro hn
    have ht := on_time_le_data prev
    have htq : ((accOf prev).on_time_count : ℚ) ≤
        ((accOf prev).items_with_data : ℚ) := by exact_mod_cast ht
    have hnq : (0 : ℚ) < ((accOf prev).items_with_data : ℚ) := by
      exact_mod_cast hn
    have hn1 : 0 < (accOf prev).items_with_data + 1 := Nat.succ_pos _
    have hn1q : (0 : ℚ) < (((accOf prev).items_with_data + 1 : ℕ) : ℚ) := by
      positivity
    simp only [onTimeDeliveryPercentage]
    rw [if_pos hn, hdata2, hot2, if_pos hn1]
    rw [div_mul_eq_mul_div, div_mul_eq_mul_div, div_le_div_iff₀ hnq hn1q]
    push_cast
    nlinarith [htq]

/-- C10 witness: estimate 4, missing target date, parseable closed date,
appended to the empty developer list. -/
theorem c10_missing_dates_counted_on_time_witness :
    2 ≤ 2 ∧
    (StackResult.mk false false false 1 0 0 0).should_ignore = false ∧
    ((WorkItem.mk "Active" (some 4) DateField.missing
        (DateField.parsed 0)).target_date = DateField.missing ∨
     (WorkItem.mk "Active" (some 4) DateField.missing
        (DateField.parsed 0)).closed_date = DateField.missing) ∧
    ((calculateFairEfficiencyMetrics defaultConfig
        ⟨"Active", some 4, DateField.missing, DateField.parsed 0⟩ 2
        ⟨false, false, false, 1, 0, 0, 0⟩ none none).days_ahead_behind = 0 ∧
     (calculateFairEfficiencyMetrics defaultConfig
        ⟨"Active", some 4, DateField.missing, DateField.parsed 0⟩ 2
        ⟨false, false, false, 1, 0, 0, 0⟩ none none).delivery_score = 100) :=
  ⟨le_refl 2, rfl, Or.inl rfl, by
    have h := c10_missing_dates_counted_on_time defaultConfig
      ⟨"Active", some 4, DateField.missing, DateField.parsed 0⟩ 2
      ⟨false, false, false, 1, 0, 0, 0⟩ none none [] "" (le_refl 2) rfl
      (Or.inl rfl)
    exact ⟨h.1, h.2.1⟩⟩

/-- C8 witness: the default configuration, whose cap 150 sits on the 0.01
grid (k = 15000), on a concrete scored item. -/
theorem c8_amended_witness :
    0 < defaultConfig.max_efficiency_cap ∧
    defaultConfig.max_efficiency_cap = ((15000 : ℤ) : ℚ) / 100 ∧
    (fairEfficiencyFormula 1 0 1 0 defaultConfig.max_efficiency_cap ≤
      defaultConfig.max_efficiency_cap ∧
     traditionalEfficiency 1 1 defaultConfig.max_efficiency_cap ≤
      defaultConfig.max_efficiency_cap ∧
     (calculateFairEfficiencyMetrics defaultConfig
        ⟨"Active", some 1, DateField.missing, DateField.missing⟩ 2
        ⟨false, false, false, 1, 0, 0, 0⟩ none none).fair_efficiency_score ≤
      defaultConfig.max_efficiency_cap ∧
     (calculateFairEfficiencyMetrics defaultConfig
        ⟨"Active", some 1, DateField.missing, DateField.missing⟩ 2
        ⟨false, false, false, 1, 0, 0, 0⟩ none none).efficiency_percentage ≤
      defaultConfig.max_efficiency_cap) :=
  ⟨by norm_num [defaultConfig], by norm_num [defaultConfig],
   c8_amended defaultConfig
     ⟨"Active", some 1, DateField.missing, DateField.missing⟩ 2
     ⟨false, false, false, 1, 0, 0, 0⟩ none none 1 0 1 0 15000
     (by norm_num [defaultConfig]) (by norm_num [defaultConfig])⟩

end AzKpi
